import Mathlib

/-!
Shallow embedding of the tic-tac-online matchmaking and session engine
(`src/routes/game/services.py`), faithful to the Python source:

* identities are `Nat` (opaque integers from the external account store);
* a board is a Python-style list of lists, each cell `Option Nat`;
* Python dicts (`self.games`, the DB games table) are association lists;
* Python list indexing, including negative indices and `IndexError`, is
  `pyResolve`;
* Python exceptions (`KeyError`, `IndexError`, attribute access on `None`)
  are an `Option PyErr` component of each operation's result: `none` means
  the call returned normally, `some e` that it raised, with the returned
  `World` being the state at the moment of the raise;
* Python truthiness of `winner_id and loser_id` (where `0` and `None` are
  falsy) is `truthyId`;
* outbound WebSocket sends are recorded in an ordered outbox of
  `(recipient, message)` pairs.
-/

namespace TicTacOnline

/-- A board cell: `none` when empty, `some uid` once occupied. -/
abbrev Cell := Option Nat

/-- A Python list-of-lists board. The engine only ever builds 3x3 boards. -/
abbrev Board := List (List Cell)

/-- The `[[None] * 3 for _ in range(3)]` initial board. -/
def emptyBoard : Board :=
  [[none, none, none], [none, none, none], [none, none, none]]

/-- Python exceptions that the embedded operations can raise. -/
inductive PyErr where
  | keyError
  | indexError
  | attributeError
deriving Repr, DecidableEq

/-- Resolve a Python list index of a list of length `len`: nonnegative
indices below `len` stand for themselves, negative indices from `-len`
mirror from the end (`-1` is the last element), and anything else is an
`IndexError` (`none`). -/
def pyResolve (len : Nat) (i : Int) : Option Nat :=
  if 0 ≤ i ∧ i < (len : Int) then some i.toNat
  else if -(len : Int) ≤ i ∧ i < 0 then some ((len : Int) + i).toNat
  else none

/-- Python list read `l[i]`, with negative indexing; `none` is `IndexError`. -/
def pyGet (l : List Cell) (i : Int) : Option Cell :=
  (pyResolve l.length i).bind fun n => l[n]?

/-- Association-list read of a Python dict; `none` is a missing key. -/
def dictGet (l : List (Nat × α)) (k : Nat) : Option α :=
  (l.find? fun p => p.1 == k).map Prod.snd

/-- Association-list write of a Python dict: overwrite in place when the
key exists (dicts keep insertion order), append otherwise. -/
def dictSet (l : List (Nat × α)) (k : Nat) (v : α) : List (Nat × α) :=
  if l.any fun p => p.1 == k then l.map fun p => if p.1 == k then (k, v) else p
  else l ++ [(k, v)]

/-- Association-list deletion, Python's `del d[k]`. -/
def dictDel (l : List (Nat × α)) (k : Nat) : List (Nat × α) :=
  l.filter fun p => p.1 != k

/-- One row of the external `users` table: display name and the three
win/loss/draw counters. -/
structure UserRow where
  username : String
  wins : Nat
  losses : Nat
  draws : Nat
deriving Repr, DecidableEq

/-- The persisted `GameStatus` enum. `CANCELLED` exists in the schema but
is never produced by this engine. -/
inductive GStatus where
  | in_progress
  | completed
  | cancelled
deriving Repr, DecidableEq

/-- One row of the external `games` table, the fields this engine touches. -/
structure GameRow where
  player1_id : Nat
  player2_id : Nat
  status : GStatus
  winner_id : Option Nat
  loser_id : Option Nat
  is_draw : Bool
  player1_move_count : Nat
  player2_move_count : Nat
  final_state : Option Board
deriving Repr, DecidableEq

/-- The in-memory per-session state kept in `GameManager.games`:
participants, move counters, whose turn it is, and the board. -/
structure GameState where
  player1 : Nat
  player2 : Nat
  player1_move_count : Nat
  player2_move_count : Nat
  turn : Nat
  board : Board
deriving Repr, DecidableEq

/-- The fresh in-memory session `start_game` builds for `user_id1` (the
incoming user in the join path) and `user_id2`: zeroed counters, empty
board, `turn = user_id1`. -/
def initialSession (user_id1 user_id2 : Nat) : GameState :=
  { player1 := user_id1
    player2 := user_id2
    player1_move_count := 0
    player2_move_count := 0
    turn := user_id1
    board := emptyBoard }

/-- The relational store the engine talks to: the users table (lookup by
id, `none` when the id does not resolve), the games table keyed by game
id, and the autoincrement counter that assigns the next game id. -/
structure DB where
  users : Nat → Option UserRow
  games : List (Nat × GameRow)
  nextGameId : Nat

/-- `GameManager`'s own mutable state: the FIFO matchmaking queue (front =
oldest) and the in-memory session store. -/
structure ManagerState where
  queue : List Nat
  games : List (Nat × GameState)

/-- Outbound WebSocket messages, mirroring the three JSON shapes the
engine sends. -/
inductive Msg where
  | gameStart (game_id : Nat) (p1 p2 : Nat) (u1 u2 : String) (turn : Nat)
  | gameMove (game_id : Nat) (player_id : Nat) (turn : Nat) (row col : Int)
  | gameEnd (game_id : Nat) (winner_id : Option Nat)
deriving Repr, DecidableEq

/-- The whole mutable world an operation can touch: manager state, the
database, and the ordered log of `send_message` calls. -/
structure World where
  mgr : ManagerState
  db : DB
  out : List (Nat × Msg)

/-- Board access at fixed nonnegative indices, as used by `is_game_over`
(which always indexes 0..2 on the 3x3 boards the engine builds). -/
def cellAt (b : Board) (i j : Nat) : Cell :=
  (b.getD i []).getD j none

/-- Python's chained `a == b == c == player_id` on three cells. -/
def chain3 (a b c : Cell) (p : Nat) : Bool :=
  a == b && b == c && c == some p

/-- The body of `GameManager.is_game_over` after the session lookup: `1`
if any of the 3 rows, 3 columns or 2 diagonals is three cells equal to
`p`, else `2` if every cell is occupied, else `0`, checked in the
source's order (row i, column i for i = 0,1,2, then the two diagonals). -/
def is_game_over_board (b : Board) (p : Nat) : Nat :=
  if chain3 (cellAt b 0 0) (cellAt b 0 1) (cellAt b 0 2) p then 1
  else if chain3 (cellAt b 0 0) (cellAt b 1 0) (cellAt b 2 0) p then 1
  else if chain3 (cellAt b 1 0) (cellAt b 1 1) (cellAt b 1 2) p then 1
  else if chain3 (cellAt b 0 1) (cellAt b 1 1) (cellAt b 2 1) p then 1
  else if chain3 (cellAt b 2 0) (cellAt b 2 1) (cellAt b 2 2) p then 1
  else if chain3 (cellAt b 0 2) (cellAt b 1 2) (cellAt b 2 2) p then 1
  else if chain3 (cellAt b 0 0) (cellAt b 1 1) (cellAt b 2 2) p then 1
  else if chain3 (cellAt b 0 2) (cellAt b 1 1) (cellAt b 2 0) p then 1
  else if b.all fun row => row.all fun c => c != none then 2
  else 0

/-- Python truthiness of the ids in `if winner_id and loser_id:`: `None`
and the integer `0` are falsy, every other integer truthy. -/
def truthyId : Option Nat → Bool
  | none => false
  | some n => n != 0

/-- `GameManager.handle_game_end`: looks the session up (a `KeyError` if
absent, as `is_game_over` indexes `self.games`), returns silently when
the detector says continue; otherwise broadcasts `GAME_END` to both
participants, updates the account counters (win/loss when `winner_id and
loser_id` is truthy, draws for both otherwise), rewrites the game row,
and deletes the in-memory session. A missing user or game row raises
(`AttributeError` on `None`) at the point the source would, leaving the
mutations made so far in place. -/
def handle_game_end (w : World) (game_id current_player_id opponent_player_id : Nat) :
    World × Option PyErr :=
  match dictGet w.mgr.games game_id with
  | none => (w, some PyErr.keyError)
  | some game =>
    let igo := is_game_over_board game.board current_player_id
    if igo = 0 then (w, none)
    else
      let winner_id : Option Nat := if igo = 1 then some current_player_id else none
      let loser_id : Option Nat := if igo = 1 then some opponent_player_id else none
      let endMsg := Msg.gameEnd game_id winner_id
      let w1 : World :=
        { w with out := w.out ++ [(current_player_id, endMsg), (opponent_player_id, endMsg)] }
      let statsStep : Option (Nat → Option UserRow) :=
        if truthyId winner_id && truthyId loser_id then
          match w1.db.users current_player_id with
          | none => none
          | some winner =>
            let users1 : Nat → Option UserRow := fun x =>
              if x = current_player_id then some { winner with wins := winner.wins + 1 }
              else w1.db.users x
            match users1 opponent_player_id with
            | none => none
            | some loser =>
              some fun x =>
                if x = opponent_player_id then some { loser with losses := loser.losses + 1 }
                else users1 x
        else
          match w1.db.users current_player_id with
          | none => none
          | some player1 =>
            let users1 : Nat → Option UserRow := fun x =>
              if x = current_player_id then some { player1 with draws := player1.draws + 1 }
              else w1.db.users x
            match users1 opponent_player_id with
            | none => none
            | some player2 =>
              some fun x =>
                if x = opponent_player_id then some { player2 with draws := player2.draws + 1 }
                else users1 x
      match statsStep with
      | none => (w1, some PyErr.attributeError)
      | some users2 =>
        let w2 : World := { w1 with db := { w1.db with users := users2 } }
        match dictGet w2.db.games game_id with
        | none => (w2, some PyErr.attributeError)
        | some row =>
          let row2 : GameRow :=
            { row with
              status := GStatus.completed
              winner_id := winner_id
              loser_id := loser_id
              is_draw := igo = 2
              player1_move_count := game.player1_move_count
              player2_move_count := game.player2_move_count
              final_state := some game.board }
          let w3 : World :=
            { w2 with
              db := { w2.db with games := dictSet w2.db.games game_id row2 }
              mgr := { w2.mgr with games := dictDel w2.mgr.games game_id } }
          (w3, none)

/-- The session as `play_move` leaves it after an accepted move: the
resolved cell set to the mover, turn flipped to the other participant,
the mover's move counter bumped. -/
def movedSession (g : GameState) (current other : Nat) (r c : Nat) (rowList : List Cell) :
    GameState :=
  { g with
    board := g.board.set r (rowList.set c (some current))
    turn := other
    player1_move_count :=
      if current == g.player1 then g.player1_move_count + 1 else g.player1_move_count
    player2_move_count :=
      if current == g.player1 then g.player2_move_count else g.player2_move_count + 1 }

/-- The mover's own counter, the f-string selector
`player{1 if uid == game.player1 else 2}_move_count`. -/
def moveCountOf (g : GameState) (uid : Nat) : Nat :=
  if uid == g.player1 then g.player1_move_count else g.player2_move_count

/-- `GameManager.play_move`: `self.games[game_id]` (a `KeyError` when the
session is unknown), then the not-your-turn and occupied-cell checks,
each a silent return; board indexing uses Python semantics, so an
out-of-range row or column raises `IndexError` at the occupancy read.
On acceptance it mutates the session, broadcasts `GAME_MOVE` to both
participants, and hands off to `handle_game_end`. -/
def play_move (w : World) (game_id current_player_id : Nat) (row col : Int) :
    World × Option PyErr :=
  match dictGet w.mgr.games game_id with
  | none => (w, some PyErr.keyError)
  | some game =>
    let other_player_id :=
      if current_player_id == game.player1 then game.player2 else game.player1
    if game.turn != current_player_id then (w, none)
    else
      match pyResolve game.board.length row with
      | none => (w, some PyErr.indexError)
      | some r =>
        match game.board[r]? with
        | none => (w, some PyErr.indexError)
        | some rowList =>
          match pyResolve rowList.length col with
          | none => (w, some PyErr.indexError)
          | some c =>
            match rowList[c]? with
            | none => (w, some PyErr.indexError)
            | some cellv =>
              if cellv != none then (w, none)
              else
                let game2 := movedSession game current_player_id other_player_id r c rowList
                let moveMsg := Msg.gameMove game_id current_player_id other_player_id row col
                let w1 : World :=
                  { w with
                    mgr := { w.mgr with games := dictSet w.mgr.games game_id game2 }
                    out := w.out ++ [(current_player_id, moveMsg), (other_player_id, moveMsg)] }
                handle_game_end w1 game_id current_player_id other_player_id

/-- `GameManager.start_game`: creates the game row (id from the store's
autoincrement counter), installs the fresh in-memory session with
`turn = user_id1`, then builds and broadcasts the `GAME_START` message —
which reads both usernames, so an unresolvable participant raises there,
after the row and session are already in place, as in the source. -/
def start_game (w : World) (user_id1 user_id2 : Nat) : World × Option PyErr :=
  let gid := w.db.nextGameId
  let newRow : GameRow :=
    { player1_id := user_id1
      player2_id := user_id2
      status := GStatus.in_progress
      winner_id := none
      loser_id := none
      is_draw := false
      player1_move_count := 0
      player2_move_count := 0
      final_state := none }
  let w1 : World :=
    { w with
      db := { w.db with
              games := dictSet w.db.games gid newRow
              nextGameId := w.db.nextGameId + 1 }
      mgr := { w.mgr with games := dictSet w.mgr.games gid (initialSession user_id1 user_id2) } }
  match w.db.users user_id1, w.db.users user_id2 with
  | some p1, some p2 =>
    let startMsg := Msg.gameStart gid user_id1 user_id2 p1.username p2.username user_id1
    ({ w1 with out := w1.out ++ [(user_id1, startMsg), (user_id2, startMsg)] }, none)
  | _, _ => (w1, some PyErr.attributeError)

/-- `GameManager.join_queue`: with a non-empty queue, `popleft` the oldest
waiting identity and start a game between the incoming user (first
argument of `start_game`) and the waiting one; otherwise append the
incoming user to the back of the queue. -/
def join_queue (w : World) (user_id : Nat) : World × Option PyErr :=
  match w.mgr.queue with
  | [] =>
    ({ w with mgr := { w.mgr with queue := w.mgr.queue ++ [user_id] } }, none)
  | waiting_user_id :: rest =>
    start_game { w with mgr := { w.mgr with queue := rest } } user_id waiting_user_id

/-- The payload `create_websocket_token` serializes into the TTL store. -/
structure TokenData where
  user_id : Nat
  username : String
deriving Repr, DecidableEq

/-- The errors `get_current_user_from_websocket_token` raises. -/
inductive RedeemErr where
  | invalidToken
  | userNotFound
deriving Repr, DecidableEq

/-- `get_current_user_from_websocket_token`: read the token's mapping from
the TTL store (`none` models both absent and expired keys), raise
`InvalidToken` when missing, resolve the stored user id against the
users table, raise `UserNotFound` when it no longer exists, and return
the user. The function never writes or deletes a store key, so the
returned store is the input store unchanged: redeeming does not
invalidate the token. -/
def get_current_user_from_websocket_token
    (store : String → Option TokenData) (users : Nat → Option UserRow) (token : String) :
    (String → Option TokenData) × Except RedeemErr UserRow :=
  match store ("ws_token:" ++ token) with
  | none => (store, Except.error RedeemErr.invalidToken)
  | some data =>
    match users data.user_id with
    | none => (store, Except.error RedeemErr.userNotFound)
    | some user => (store, Except.ok user)

/-- A TTL store holding one live token mapping, for concrete runs. -/
def sampleStore : String → Option TokenData := fun s =>
  if s = "ws_token:tok" then some { user_id := 1, username := "A" } else none

/-- A move command as it arrives over the socket: game id, the sender's
identity, and the raw client-supplied coordinates. -/
structure MoveCmd where
  game_id : Nat
  player : Nat
  row : Int
  col : Int

/-- Run a sequence of `play_move` calls. An exception aborts only the
handler that raised it (the server loop catches nothing around state),
so the next call continues from the state at the raise point. -/
def runMoves (w : World) : List MoveCmd → World
  | [] => w
  | m :: ms => runMoves (play_move w m.game_id m.player m.row m.col).1 ms

/-- Board read at resolved (nonnegative) indices, `none` when off the
list. Distinct from `cellAt` so off-board reads are visible. -/
def getCell (b : Board) (i j : Nat) : Option Cell :=
  b[i]?.bind fun rowList => rowList[j]?

/-- The guard conjunction under which `play_move` accepts a move: session
known, mover on turn, both coordinates resolving, target cell empty. -/
def moveAccepted (w : World) (game_id current : Nat) (row col : Int) : Prop :=
  ∃ g r rowList c,
    dictGet w.mgr.games game_id = some g ∧
    g.turn = current ∧
    pyResolve g.board.length row = some r ∧
    g.board[r]? = some rowList ∧
    pyResolve rowList.length col = some c ∧
    rowList[c]? = some none

/-- A two-user account store for concrete runs: identity 1 is "A",
identity 2 is "B". -/
def sampleUsers : Nat → Option UserRow := fun n =>
  if n = 1 then some { username := "A", wins := 0, losses := 0, draws := 0 }
  else if n = 2 then some { username := "B", wins := 0, losses := 0, draws := 0 }
  else none

/-- A fresh world: empty queue, no sessions, empty DB games table,
autoincrement at 0, nothing sent. -/
def w0 : World :=
  { mgr := { queue := [], games := [] }
    db := { users := sampleUsers, games := [], nextGameId := 0 }
    out := [] }

/-- The world after A (= 1) and then B (= 2) join the queue: session 0
exists with player1 = 2, player2 = 1, turn = 2 (the incoming B). -/
def wStart : World := (join_queue (join_queue w0 1).1 2).1

/-- `wStart` after B (= 2, on turn) plays (0, 0): cell (0,0) holds 2 and
turn is 1. -/
def wMove1 : World := (play_move wStart 0 2 0 0).1

/-- An account store containing the identity 0 ("Z") and identity 2
("B"), for exercising Python truthiness of the integer 0. -/
def zeroUsers : Nat → Option UserRow := fun n =>
  if n = 0 then some { username := "Z", wins := 0, losses := 0, draws := 0 }
  else if n = 2 then some { username := "B", wins := 0, losses := 0, draws := 0 }
  else none

/-- A board on which identity 0 has completed the top row. -/
def zeroWinBoard : Board :=
  [[some 0, some 0, some 0], [some 2, some 2, none], [none, none, none]]

/-- A world whose session 0 pits identity 0 against identity 2, with the
board showing a completed winning row for identity 0. -/
def wZero : World :=
  { mgr := { queue := []
             games := [(0, { player1 := 0, player2 := 2, player1_move_count := 3,
                             player2_move_count := 2, turn := 2, board := zeroWinBoard })] }
    db := { users := zeroUsers
            games := [(0, { player1_id := 0, player2_id := 2,
                            status := GStatus.in_progress, winner_id := none,
                            loser_id := none, is_draw := false, player1_move_count := 0,
                            player2_move_count := 0, final_state := none })]
            nextGameId := 1 }
    out := [] }

/-- A session in which player 1 has just completed the top row against
player 2. -/
def winSession : GameState :=
  { player1 := 1, player2 := 2, player1_move_count := 3, player2_move_count := 2,
    turn := 2,
    board := [[some 1, some 1, some 1], [some 2, some 2, none], [none, none, none]] }

/-- A full board with no three-in-line for player 1. -/
def drawSession : GameState :=
  { player1 := 1, player2 := 2, player1_move_count := 5, player2_move_count := 4,
    turn := 2,
    board := [[some 1, some 2, some 1], [some 2, some 1, some 2], [some 2, some 1, some 2]] }

/-- The game row `start_game` persists for players `p1` and `p2`. -/
def freshRow (p1 p2 : Nat) : GameRow :=
  { player1_id := p1, player2_id := p2, status := GStatus.in_progress, winner_id := none,
    loser_id := none, is_draw := false, player1_move_count := 0, player2_move_count := 0,
    final_state := none }

/-- A world in which session 0 is `winSession`, ready for terminal
handling with mover 1. -/
def wWin : World :=
  { mgr := { queue := [], games := [(0, winSession)] }
    db := { users := sampleUsers, games := [(0, freshRow 1 2)], nextGameId := 1 }
    out := [] }

/-- A world in which session 0 is `drawSession`, ready for terminal
handling with mover 1. -/
def wDraw : World :=
  { mgr := { queue := [], games := [(0, drawSession)] }
    db := { users := sampleUsers, games := [(0, freshRow 1 2)], nextGameId := 1 }
    out := [] }

/-- The 8 winning lines (3 rows, 3 columns, 2 diagonals) all equal to the
candidate — the specification's reading of the win condition. -/
def winsLine (b : Board) (p : Nat) : Prop :=
  (cellAt b 0 0 = some p ∧ cellAt b 0 1 = some p ∧ cellAt b 0 2 = some p) ∨
  (cellAt b 1 0 = some p ∧ cellAt b 1 1 = some p ∧ cellAt b 1 2 = some p) ∨
  (cellAt b 2 0 = some p ∧ cellAt b 2 1 = some p ∧ cellAt b 2 2 = some p) ∨
  (cellAt b 0 0 = some p ∧ cellAt b 1 0 = some p ∧ cellAt b 2 0 = some p) ∨
  (cellAt b 0 1 = some p ∧ cellAt b 1 1 = some p ∧ cellAt b 2 1 = some p) ∨
  (cellAt b 0 2 = some p ∧ cellAt b 1 2 = some p ∧ cellAt b 2 2 = some p) ∨
  (cellAt b 0 0 = some p ∧ cellAt b 1 1 = some p ∧ cellAt b 2 2 = some p) ∨
  (cellAt b 0 2 = some p ∧ cellAt b 1 1 = some p ∧ cellAt b 2 0 = some p)

/-- Every cell of the board is occupied. -/
def boardFull (b : Board) : Prop :=
  ∀ rowList ∈ b, ∀ c ∈ rowList, c ≠ none

/-- A board with 3 rows of 3 cells each, the only shape the engine builds. -/
def boardShape3 (b : Board) : Prop :=
  b.length = 3 ∧ ∀ rowList ∈ b, rowList.length = 3

instance (b : Board) : Decidable (boardFull b) := by
  unfold boardFull; infer_instance

instance (b : Board) : Decidable (boardShape3 b) := by
  unfold boardShape3; infer_instance

instance (b : Board) (p : Nat) : Decidable (winsLine b p) := by
  unfold winsLine; infer_instance

theorem dictGet_cons {α : Type} (p : Nat × α) (t : List (Nat × α)) (k : Nat) :
    dictGet (p :: t) k = if p.1 = k then some p.2 else dictGet t k := by
  unfold dictGet
  by_cases hp : p.1 = k <;> simp [List.find?_cons, hp]

theorem dictGet_append {α : Type} (l1 l2 : List (Nat × α)) (k : Nat) :
    dictGet (l1 ++ l2) k = (dictGet l1 k).orElse fun _ => dictGet l2 k := by
  induction l1 with
  | nil => simp [dictGet]
  | cons p t ih =>
    rw [List.cons_append, dictGet_cons, dictGet_cons]
    by_cases hp : p.1 = k <;> simp [hp, ih]

theorem dictGet_eq_none_of_not_any {α : Type} (l : List (Nat × α)) (k : Nat)
    (h : (l.any fun p => p.1 == k) = false) : dictGet l k = none := by
  induction l with
  | nil => rfl
  | cons p t ih =>
    simp only [List.any_cons, Bool.or_eq_false_iff] at h
    rw [dictGet_cons]
    have hp : p.1 ≠ k := by simpa using h.1
    simp [hp, ih h.2]

theorem dictGet_mapSet_self {α : Type} (l : List (Nat × α)) (k : Nat) (v : α)
    (h : (l.any fun p => p.1 == k) = true) :
    dictGet (l.map fun p => if p.1 == k then (k, v) else p) k = some v := by
  induction l with
  | nil => simp at h
  | cons p t ih =>
    simp only [List.map_cons]
    cases hpb : p.1 == k
    · rw [if_neg (by simp [hpb]), dictGet_cons, if_neg (by simpa using hpb)]
      simp only [List.any_cons, hpb, Bool.false_or] at h
      exact ih h
    · rw [if_pos (by simp [hpb]), dictGet_cons, if_pos rfl]

theorem dictGet_mapSet_ne {α : Type} (l : List (Nat × α)) (k k2 : Nat) (v : α) (h : k2 ≠ k) :
    dictGet (l.map fun p => if p.1 == k then (k, v) else p) k2 = dictGet l k2 := by
  induction l with
  | nil => rfl
  | cons p t ih =>
    simp only [List.map_cons]
    cases hpb : p.1 == k
    · rw [if_neg (by simp [hpb]), dictGet_cons, dictGet_cons]
      by_cases hp2 : p.1 = k2
      · rw [if_pos hp2, if_pos hp2]
      · rw [if_neg hp2, if_neg hp2]
        exact ih
    · have hp : p.1 = k := by simpa using hpb
      have h1 : ¬((k, v).1 = k2) := fun hh => h (by simpa using hh.symm)
      have h2 : ¬(p.1 = k2) := by rw [hp]; exact fun hh => h hh.symm
      rw [if_pos (by simp [hpb]), dictGet_cons, dictGet_cons, if_neg h1, if_neg h2]
      exact ih

theorem dictGet_dictSet_self {α : Type} (l : List (Nat × α)) (k : Nat) (v : α) :
    dictGet (dictSet l k v) k = some v := by
  unfold dictSet
  split_ifs with h
  · exact dictGet_mapSet_self l k v h
  · rw [dictGet_append, dictGet_eq_none_of_not_any l k (Bool.eq_false_iff.mpr h)]
    simp [dictGet_cons]

theorem dictGet_dictSet_ne {α : Type} (l : List (Nat × α)) (k k2 : Nat) (v : α) (h : k2 ≠ k) :
    dictGet (dictSet l k v) k2 = dictGet l k2 := by
  unfold dictSet
  split_ifs with hany
  · exact dictGet_mapSet_ne l k k2 v h
  · rw [dictGet_append]
    have hk : (k : Nat) ≠ k2 := fun hh => h hh.symm
    cases hg : dictGet l k2 <;> simp [hg, dictGet_cons, hk, dictGet]

theorem dictGet_dictDel_self {α : Type} (l : List (Nat × α)) (k : Nat) :
    dictGet (dictDel l k) k = none := by
  induction l with
  | nil => rfl
  | cons p t ih =>
    unfold dictDel at ih ⊢
    rw [List.filter_cons]
    by_cases hp : p.1 = k
    · simp only [(by simp [hp] : (p.1 != k) = false), Bool.false_eq_true, if_false]
      exact ih
    · simp only [(by simp [hp] : (p.1 != k) = true), if_true]
      rw [dictGet_cons, if_neg hp]
      exact ih

theorem dictGet_dictDel_ne {α : Type} (l : List (Nat × α)) (k k2 : Nat) (h : k2 ≠ k) :
    dictGet (dictDel l k) k2 = dictGet l k2 := by
  induction l with
  | nil => rfl
  | cons p t ih =>
    unfold dictDel at ih ⊢
    rw [List.filter_cons]
    by_cases hp : p.1 = k
    · have hp2 : p.1 ≠ k2 := by rw [hp]; exact fun hh => h hh.symm
      simp only [(by simp [hp] : (p.1 != k) = false), Bool.false_eq_true, if_false]
      rw [ih, dictGet_cons, if_neg hp2]
    · simp only [(by simp [hp] : (p.1 != k) = true), if_true]
      rw [dictGet_cons, dictGet_cons, ih]

theorem chain3_iff (a b c : Cell) (p : Nat) :
    chain3 a b c p = true ↔ (a = some p ∧ b = some p ∧ c = some p) := by
  simp only [chain3, Bool.and_eq_true, beq_iff_eq]
  constructor
  · rintro ⟨⟨hab, hbc⟩, hc⟩
    subst hc; subst hbc; subst hab
    exact ⟨rfl, rfl, rfl⟩
  · rintro ⟨ha, hb, hc⟩
    subst ha; subst hb; subst hc
    exact ⟨⟨rfl, rfl⟩, rfl⟩

theorem boardAll_iff_full (b : Board) :
    (b.all fun rowList => rowList.all fun c => c != none) = true ↔ boardFull b := by
  simp [boardFull, List.all_eq_true]

set_option maxHeartbeats 1000000 in
theorem is_game_over_board_eq_one (b : Board) (p : Nat) :
    is_game_over_board b p = 1 ↔ winsLine b p := by
  unfold is_game_over_board winsLine
  simp only [← chain3_iff]
  split_ifs with h1 h2 h3 h4 h5 h6 h7 h8 h9 <;> simp_all

set_option maxHeartbeats 1000000 in
theorem is_game_over_board_eq_two (b : Board) (p : Nat)
    (hw : ¬ winsLine b p) (hf : boardFull b) : is_game_over_board b p = 2 := by
  unfold winsLine at hw
  rw [← boardAll_iff_full] at hf
  unfold is_game_over_board
  simp only [← chain3_iff] at hw
  split_ifs with h1 h2 h3 h4 h5 h6 h7 h8 <;> simp_all

set_option maxHeartbeats 1000000 in
theorem is_game_over_board_eq_zero (b : Board) (p : Nat)
    (hw : ¬ winsLine b p) (hf : ¬ boardFull b) : is_game_over_board b p = 0 := by
  unfold winsLine at hw
  rw [← boardAll_iff_full] at hf
  unfold is_game_over_board
  simp only [← chain3_iff] at hw
  split_ifs with h1 h2 h3 h4 h5 h6 h7 h8 <;> simp_all

/-- C3: on every 3x3 board the detector returns WIN (1) exactly when one
of the 8 lines (3 rows, 3 columns, 2 diagonals) is three cells equal to
the candidate; with no such line it returns DRAW (2) when the board is
fully occupied and CONTINUE (0) otherwise — so a full board with no
winning line never yields CONTINUE. -/
theorem is_game_over_board_spec (b : Board) (p : Nat) (_hshape : boardShape3 b) :
    (is_game_over_board b p = 1 ↔ winsLine b p) ∧
    (¬ winsLine b p → boardFull b → is_game_over_board b p = 2) ∧
    (¬ winsLine b p → ¬ boardFull b → is_game_over_board b p = 0) :=
  ⟨is_game_over_board_eq_one b p,
   is_game_over_board_eq_two b p,
   is_game_over_board_eq_zero b p⟩

/-- Witness for `is_game_over_board_spec` at a concrete full drawn board. -/
theorem is_game_over_board_spec_witness :
    boardShape3 [[some 1, some 2, some 1], [some 2, some 1, some 2], [some 2, some 1, some 2]] ∧
    (is_game_over_board
        [[some 1, some 2, some 1], [some 2, some 1, some 2], [some 2, some 1, some 2]] 1 = 1 ↔
      winsLine
        [[some 1, some 2, some 1], [some 2, some 1, some 2], [some 2, some 1, some 2]] 1) := by
  refine ⟨by decide, ?_⟩
  exact (is_game_over_board_spec
    [[some 1, some 2, some 1], [some 2, some 1, some 2], [some 2, some 1, some 2]] 1
    (by decide)).1

/-- C7: matchmaking is strict FIFO — with a non-empty queue the oldest
waiting identity (the head) is removed and paired with the incoming one
(a session between them is created), and with an empty queue the
incoming identity is appended to the back. -/
theorem join_queue_fifo (w : World) (user_id : Nat) :
    (w.mgr.queue = [] → (join_queue w user_id).1.mgr.queue = [user_id]) ∧
    (∀ a rest, w.mgr.queue = a :: rest →
      (join_queue w user_id).1.mgr.queue = rest ∧
      dictGet (join_queue w user_id).1.mgr.games w.db.nextGameId =
        some (initialSession user_id a)) := by
  obtain ⟨⟨q, games⟩, db, out⟩ := w
  constructor
  · intro hq
    simp only at hq
    subst hq
    simp [join_queue]
  · intro a rest hq
    simp only at hq
    subst hq
    unfold join_queue start_game
    cases hu1 : db.users user_id <;> cases hu2 : db.users a <;>
      simp [hu1, hu2, dictGet_dictSet_self]

/-- Witness for `join_queue_fifo`: D (= 4) arriving at queue [A, B, C]
(= [1, 2, 3]) pairs with A, leaving queue [B, C]. -/
theorem join_queue_fifo_witness :
    (join_queue
        { mgr := { queue := [1, 2, 3], games := [] }
          db := { users := sampleUsers, games := [], nextGameId := 0 }
          out := [] } 4).1.mgr.queue = [2, 3] ∧
    dictGet (join_queue
        { mgr := { queue := [1, 2, 3], games := [] }
          db := { users := sampleUsers, games := [], nextGameId := 0 }
          out := [] } 4).1.mgr.games 0 = some (initialSession 4 1) := by
  have h := (join_queue_fifo
    { mgr := { queue := [1, 2, 3], games := [] }
      db := { users := sampleUsers, games := [], nextGameId := 0 }
      out := [] } 4).2 1 [2, 3] rfl
  exact ⟨h.1, h.2⟩

/-- C1 counterexample: A (= 1) joins the empty queue, then B (= 2) joins;
the session starts with turn = 2 (the incoming, second-arriving B), not
turn = 1, and both GAME_START messages carry turn = 2 — the claim's
"turn equal to the first-arriving identity" and "turn = A" are false. -/
theorem join_queue_turn_counterexample :
    (join_queue w0 1).1.mgr.queue = [1] ∧
    (dictGet (join_queue (join_queue w0 1).1 2).1.mgr.games 0).map GameState.turn = some 2 ∧
    (dictGet (join_queue (join_queue w0 1).1 2).1.mgr.games 0).map GameState.turn ≠ some 1 ∧
    (join_queue (join_queue w0 1).1 2).1.out =
      [(2, Msg.gameStart 0 2 1 "B" "A" 2), (1, Msg.gameStart 0 2 1 "B" "A" 2)] := by
  decide

/-- C1 (amended): for every pairing produced by the matchmaking queue, the
session is created with turn equal to the incoming (second-arriving)
identity — `start_game` is called with the incoming user as `user_id1`
and sets `turn = user_id1` — and the GAME_START broadcast to both
participants carries that identity in its turn field; when A joins an
empty queue and B joins afterwards, the session starts with turn = B. -/
theorem join_queue_turn_incoming (w : World) (incoming waiting : Nat) (rest : List Nat)
    (u1 u2 : UserRow) (hq : w.mgr.queue = waiting :: rest)
    (hu1 : w.db.users incoming = some u1) (hu2 : w.db.users waiting = some u2) :
    (join_queue w incoming).2 = none ∧
    dictGet (join_queue w incoming).1.mgr.games w.db.nextGameId =
      some (initialSession incoming waiting) ∧
    (initialSession incoming waiting).turn = incoming ∧
    (join_queue w incoming).1.out = w.out ++
      [(incoming, Msg.gameStart w.db.nextGameId incoming waiting u1.username u2.username incoming),
       (waiting, Msg.gameStart w.db.nextGameId incoming waiting u1.username u2.username incoming)] := by
  obtain ⟨⟨q, games⟩, db, out⟩ := w
  simp only at hq hu1 hu2
  subst hq
  unfold join_queue start_game
  simp [hu1, hu2, dictGet_dictSet_self, initialSession]

/-- Witness for `join_queue_turn_incoming` at the scenario of the claim:
A (= 1) waiting, B (= 2) arriving — the session and both GAME_START
messages carry turn = 2. -/
theorem join_queue_turn_incoming_witness :
    (join_queue
        { mgr := { queue := [1], games := [] }
          db := { users := sampleUsers, games := [], nextGameId := 0 }
          out := [] } 2).2 = none ∧
    dictGet (join_queue
        { mgr := { queue := [1], games := [] }
          db := { users := sampleUsers, games := [], nextGameId := 0 }
          out := [] } 2).1.mgr.games 0 = some (initialSession 2 1) := by
  have h := join_queue_turn_incoming
    { mgr := { queue := [1], games := [] }
      db := { users := sampleUsers, games := [], nextGameId := 0 }
      out := [] } 2 1 []
    { username := "B", wins := 0, losses := 0, draws := 0 }
    { username := "A", wins := 0, losses := 0, draws := 0 }
    rfl (by decide) (by decide)
  exact ⟨h.1, h.2.1⟩

/-- C2 counterexample: a GAME_MOVE for a non-existent game id is not a
silent no-op — `self.games[game_id]` raises `KeyError`. No board is
mutated and nothing is sent, but an exception escapes, contradicting
the "no exception" part of the claim. -/
theorem play_move_unknown_session_counterexample :
    (play_move w0 99 1 0 0).2 = some PyErr.keyError ∧
    (play_move w0 99 1 0 0).2 ≠ none ∧
    (play_move w0 99 1 0 0).1.mgr.games = w0.mgr.games ∧
    (play_move w0 99 1 0 0).1.out = w0.out := by
  exact ⟨rfl, by decide, rfl, rfl⟩

/-- C2 (amended): a move by a player not on turn and a move onto an
occupied cell are silent no-ops — state, outbox and everything else
unchanged, no exception; a move for an unknown session id leaves the
state and outbox unchanged and sends nothing, but raises `KeyError`
instead of returning silently. -/
theorem play_move_invalid_cases (w : World) (game_id current : Nat) (row col : Int) :
    (dictGet w.mgr.games game_id = none →
      play_move w game_id current row col = (w, some PyErr.keyError)) ∧
    (∀ g, dictGet w.mgr.games game_id = some g → g.turn ≠ current →
      play_move w game_id current row col = (w, none)) ∧
    (∀ g r rowList c cv, dictGet w.mgr.games game_id = some g → g.turn = current →
      pyResolve g.board.length row = some r → g.board[r]? = some rowList →
      pyResolve rowList.length col = some c → rowList[c]? = some cv → cv ≠ none →
      play_move w game_id current row col = (w, none)) := by
  refine ⟨?_, ?_, ?_⟩
  · intro h
    simp [play_move, h]
  · intro g hg ht
    simp [play_move, hg, ht]
  · intro g r rowList c cv hg ht hr hrl hc hcv hne
    simp [play_move, hg, ht, hr, hrl, hc, hcv, hne]

/-- Witness for `play_move_invalid_cases`: in the world where A and B
have paired (session 0, turn = 2), the unknown-session call raises
`KeyError`, A (= 1, not on turn) is rejected silently, and after B
plays (0,0) a second B move onto the same cell is rejected silently. -/
theorem play_move_invalid_cases_witness :
    play_move wStart 99 2 0 0 = (wStart, some PyErr.keyError) ∧
    play_move wStart 0 1 0 0 = (wStart, none) ∧
    play_move wMove1 0 1 0 0 = (wMove1, none) := by
  refine ⟨(play_move_invalid_cases wStart 99 2 0 0).1 (by decide), ?_, ?_⟩
  · exact (play_move_invalid_cases wStart 0 1 0 0).2.1 (initialSession 2 1)
      (by decide) (by decide)
  · exact (play_move_invalid_cases wMove1 0 1 0 0).2.2
      (movedSession (initialSession 2 1) 2 1 0 0 [none, none, none])
      0 [some 2, none, none] 0 (some 2)
      (by decide) (by decide) (by decide) (by decide) (by decide) (by decide) (by decide)

theorem getCell_set_self (b : Board) (r c : Nat) (rowList : List Cell) (v : Cell)
    (hrl : b[r]? = some rowList) (hc : c < rowList.length) :
    getCell (b.set r (rowList.set c v)) r c = some v := by
  obtain ⟨hr, _⟩ := List.getElem?_eq_some_iff.mp hrl
  unfold getCell
  rw [List.getElem?_set_self hr]
  simp [List.getElem?_set_self hc]

theorem getCell_set_other (b : Board) (r c i j : Nat) (rowList : List Cell) (v : Cell)
    (hrl : b[r]? = some rowList) (hne : ¬(i = r ∧ j = c)) :
    getCell (b.set r (rowList.set c v)) i j = getCell b i j := by
  unfold getCell
  by_cases hi : i = r
  · subst hi
    have hj : j ≠ c := fun hj => hne ⟨rfl, hj⟩
    obtain ⟨hr, _⟩ := List.getElem?_eq_some_iff.mp hrl
    rw [List.getElem?_set_self hr, hrl]
    simp only [Option.some_bind]
    exact List.getElem?_set_ne (fun h => hj h.symm)
  · rw [List.getElem?_set_ne (fun h => hi h.symm)]

/-- C4: an accepted move (session known, mover on turn, coordinates
resolving, target cell empty) raises nothing, replaces the session with
`movedSession` — which sets exactly the addressed cell to the mover
(every other cell unchanged), flips turn to the other participant, and
bumps the mover's move counter by one — and appends to the outbox
exactly the two GAME_MOVE messages to both participants carrying the new
turn and the raw move coordinates; since the detector reports CONTINUE,
no GAME_END is sent. -/
theorem play_move_accepted_effects (w : World) (game_id current other : Nat) (row col : Int)
    (g : GameState) (r c : Nat) (rowList : List Cell)
    (hother : other = if current == g.player1 then g.player2 else g.player1)
    (hg : dictGet w.mgr.games game_id = some g) (ht : g.turn = current)
    (hr : pyResolve g.board.length row = some r) (hrl : g.board[r]? = some rowList)
    (hc : pyResolve rowList.length col = some c) (hcell : rowList[c]? = some none)
    (hcont : is_game_over_board (g.board.set r (rowList.set c (some current))) current = 0) :
    (play_move w game_id current row col).2 = none ∧
    dictGet (play_move w game_id current row col).1.mgr.games game_id =
      some (movedSession g current other r c rowList) ∧
    getCell (movedSession g current other r c rowList).board r c = some (some current) ∧
    (∀ i j, ¬(i = r ∧ j = c) →
      getCell (movedSession g current other r c rowList).board i j = getCell g.board i j) ∧
    (movedSession g current other r c rowList).turn = other ∧
    moveCountOf (movedSession g current other r c rowList) current = moveCountOf g current + 1 ∧
    (play_move w game_id current row col).1.out = w.out ++
      [(current, Msg.gameMove game_id current other row col),
       (other, Msg.gameMove game_id current other row col)] := by
  have hclen : c < rowList.length := (List.getElem?_eq_some_iff.mp hcell).1
  have hplay : play_move w game_id current row col =
      handle_game_end
        { w with
          mgr := { w.mgr with
            games := dictSet w.mgr.games game_id (movedSession g current other r c rowList) }
          out := w.out ++
            [(current, Msg.gameMove game_id current other row col),
             (other, Msg.gameMove game_id current other row col)] }
        game_id current other := by
    subst hother
    simp [play_move, hg, ht, hr, hrl, hc, hcell]
  have hend : ∀ w1 : World,
      dictGet w1.mgr.games game_id = some (movedSession g current other r c rowList) →
      handle_game_end w1 game_id current other = (w1, none) := by
    intro w1 h1
    unfold handle_game_end
    rw [h1]
    simp [movedSession, hcont]
  rw [hplay, hend _ (by simp [dictGet_dictSet_self])]
  refine ⟨rfl, by simp [dictGet_dictSet_self], ?_, ?_, rfl, ?_, rfl⟩
  · exact getCell_set_self g.board r c rowList (some current) hrl hclen
  · intro i j hij
    exact getCell_set_other g.board r c i j rowList (some current) hrl hij
  · simp only [movedSession, moveCountOf]
    by_cases hcp : current == g.player1 <;> simp [hcp]

/-- Witness for `play_move_accepted_effects`: Scenario 2 — the first
accepted move of session 0 in `wStart` (mover 2, on turn, at (0,0))
succeeds, stores the moved session (cell (0,0) = 2, turn = 1, mover's
counter 1), and sends exactly the two GAME_MOVE messages — no GAME_END. -/
theorem play_move_accepted_effects_witness :
    (play_move wStart 0 2 0 0).2 = none ∧
    dictGet (play_move wStart 0 2 0 0).1.mgr.games 0 =
      some (movedSession (initialSession 2 1) 2 1 0 0 [none, none, none]) ∧
    getCell (movedSession (initialSession 2 1) 2 1 0 0 [none, none, none]).board 0 0 =
      some (some 2) ∧
    (movedSession (initialSession 2 1) 2 1 0 0 [none, none, none]).turn = 1 ∧
    (play_move wStart 0 2 0 0).1.out = wStart.out ++
      [(2, Msg.gameMove 0 2 1 0 0), (1, Msg.gameMove 0 2 1 0 0)] := by
  have h := play_move_accepted_effects wStart 0 2 1 0 0 (initialSession 2 1) 0 0
    [none, none, none] (by decide) (by decide) (by decide) (by decide) (by decide)
    (by decide) (by decide) (by decide)
  exact ⟨h.1, h.2.1, h.2.2.1, h.2.2.2.2.1, h.2.2.2.2.2.2⟩

theorem handle_game_end_games_shape (w : World) (game_id cur opp : Nat) :
    (handle_game_end w game_id cur opp).1.mgr.games = w.mgr.games ∨
    (handle_game_end w game_id cur opp).1.mgr.games = dictDel w.mgr.games game_id := by
  unfold handle_game_end
  split
  · exact Or.inl rfl
  · simp only []
    split
    · exact Or.inl rfl
    · split
      · exact Or.inl rfl
      · split
        · exact Or.inl rfl
        · exact Or.inr rfl

theorem play_move_rejected_id (w : World) (game_id current : Nat) (row col : Int)
    (h : ¬ moveAccepted w game_id current row col) :
    (play_move w game_id current row col).1 = w := by
  unfold play_move
  cases hg : dictGet w.mgr.games game_id with
  | none => rfl
  | some g =>
    simp only []
    by_cases ht : g.turn = current
    · rw [if_neg (by simp [ht])]
      cases hr : pyResolve g.board.length row with
      | none => rfl
      | some r =>
        simp only []
        cases hrl : g.board[r]? with
        | none => rfl
        | some rowList =>
          simp only []
          cases hc : pyResolve rowList.length col with
          | none => rfl
          | some c =>
            simp only []
            cases hcv : rowList[c]? with
            | none => rfl
            | some cv =>
              simp only []
              cases cv with
              | none => exact absurd ⟨g, r, rowList, c, hg, ht, hr, hrl, hc, hcv⟩ h
              | some occupant =>
                rw [if_pos (by simp)]
    · rw [if_pos (by simpa using ht)]

theorem play_move_accepted_games (w : World) (game_id current : Nat) (row col : Int)
    (g : GameState) (r c : Nat) (rowList : List Cell)
    (hg : dictGet w.mgr.games game_id = some g) (ht : g.turn = current)
    (hr : pyResolve g.board.length row = some r) (hrl : g.board[r]? = some rowList)
    (hc : pyResolve rowList.length col = some c) (hcv : rowList[c]? = some none) :
    (play_move w game_id current row col).1.mgr.games =
      dictSet w.mgr.games game_id
        (movedSession g current (if current == g.player1 then g.player2 else g.player1)
          r c rowList) ∨
    (play_move w game_id current row col).1.mgr.games =
      dictDel (dictSet w.mgr.games game_id
        (movedSession g current (if current == g.player1 then g.player2 else g.player1)
          r c rowList)) game_id := by
  have hplay : play_move w game_id current row col =
      handle_game_end
        { w with
          mgr := { w.mgr with
            games := dictSet w.mgr.games game_id
              (movedSession g current
                (if current == g.player1 then g.player2 else g.player1) r c rowList) }
          out := w.out ++
            [(current, Msg.gameMove game_id current
                (if current == g.player1 then g.player2 else g.player1) row col),
             (if current == g.player1 then g.player2 else g.player1,
              Msg.gameMove game_id current
                (if current == g.player1 then g.player2 else g.player1) row col)] }
        game_id current (if current == g.player1 then g.player2 else g.player1) := by
    simp [play_move, hg, ht, hr, hrl, hc, hcv]
  rw [hplay]
  exact handle_game_end_games_shape _ game_id current _

theorem play_move_cell_preserved (w : World) (game_id current : Nat) (row col : Int)
    (sid : Nat) (g g' : GameState) (i j v : Nat)
    (hg : dictGet w.mgr.games sid = some g)
    (hcell : getCell g.board i j = some (some v))
    (hg' : dictGet (play_move w game_id current row col).1.mgr.games sid = some g') :
    getCell g'.board i j = some (some v) := by
  by_cases hacc : moveAccepted w game_id current row col
  · obtain ⟨g0, r, rowList, c, hg0, ht, hr, hrl, hc, hcv⟩ := hacc
    rcases play_move_accepted_games w game_id current row col g0 r c rowList
        hg0 ht hr hrl hc hcv with hgm | hgm
    · rw [hgm] at hg'
      by_cases hs : sid = game_id
      · subst hs
        rw [dictGet_dictSet_self] at hg'
        rw [hg] at hg0
        injection hg0 with e
        subst e
        injection hg' with e2
        by_cases hij : i = r ∧ j = c
        · obtain ⟨hi, hj⟩ := hij
          subst hi; subst hj
          have hx : getCell g.board i j = some none := by
            unfold getCell
            rw [hrl]
            simpa using hcv
          rw [hx] at hcell
          simp at hcell
        · rw [← e2]
          simp only [movedSession]
          rw [getCell_set_other g.board r c i j rowList (some current) hrl hij]
          exact hcell
      · rw [dictGet_dictSet_ne _ _ _ _ hs, hg] at hg'
        injection hg' with e2
        rw [← e2]
        exact hcell
    · rw [hgm] at hg'
      by_cases hs : sid = game_id
      · subst hs
        rw [dictGet_dictDel_self] at hg'
        cases hg'
      · rw [dictGet_dictDel_ne _ _ _ hs, dictGet_dictSet_ne _ _ _ _ hs, hg] at hg'
        injection hg' with e2
        rw [← e2]
        exact hcell
  · rw [play_move_rejected_id w game_id current row col hacc, hg] at hg'
    injection hg' with e2
    rw [← e2]
    exact hcell

theorem play_move_absent_preserved (w : World) (game_id current : Nat) (row col : Int)
    (sid : Nat) (h : dictGet w.mgr.games sid = none) :
    dictGet (play_move w game_id current row col).1.mgr.games sid = none := by
  by_cases hacc : moveAccepted w game_id current row col
  · obtain ⟨g0, r, rowList, c, hg0, ht, hr, hrl, hc, hcv⟩ := hacc
    have hs : sid ≠ game_id := by
      intro he
      rw [he, hg0] at h
      cases h
    rcases play_move_accepted_games w game_id current row col g0 r c rowList
        hg0 ht hr hrl hc hcv with hgm | hgm <;> rw [hgm]
    · rw [dictGet_dictSet_ne _ _ _ _ hs]
      exact h
    · rw [dictGet_dictDel_ne _ _ _ hs, dictGet_dictSet_ne _ _ _ _ hs]
      exact h
  · rw [play_move_rejected_id w game_id current row col hacc]
    exact h

theorem runMoves_absent_preserved (ms : List MoveCmd) (w : World) (sid : Nat)
    (h : dictGet w.mgr.games sid = none) :
    dictGet (runMoves w ms).mgr.games sid = none := by
  induction ms generalizing w with
  | nil => exact h
  | cons m t ih =>
    exact ih _ (play_move_absent_preserved w m.game_id m.player m.row m.col sid h)

theorem runMoves_cell_preserved (ms : List MoveCmd) (w : World) (sid : Nat)
    (g g' : GameState) (i j v : Nat)
    (hg : dictGet w.mgr.games sid = some g)
    (hcell : getCell g.board i j = some (some v))
    (hg' : dictGet (runMoves w ms).mgr.games sid = some g') :
    getCell g'.board i j = some (some v) := by
  induction ms generalizing w g with
  | nil =>
    rw [show runMoves w [] = w from rfl, hg] at hg'
    injection hg' with e
    rw [← e]
    exact hcell
  | cons m t ih =>
    have hstep : runMoves w (m :: t) =
        runMoves (play_move w m.game_id m.player m.row m.col).1 t := rfl
    rw [hstep] at hg'
    cases hmid : dictGet (play_move w m.game_id m.player m.row m.col).1.mgr.games sid with
    | none =>
      rw [runMoves_absent_preserved t _ sid hmid] at hg'
      cases hg'
    | some gmid =>
      exact ih _ gmid hmid
        (play_move_cell_preserved w m.game_id m.player m.row m.col sid g gmid i j v
          hg hcell hmid) hg'

/-- C5: across every sequence of `play_move` calls, (i) a board cell of a
session, once occupied by `v`, still holds `v` whenever the session is
still in the store (write-once); (ii) a move is accepted only when its
mover equals the session's current turn; (iii) an accepted move leaves
the surviving session's turn equal to the other participant; and (iv) a
non-accepted call preserves every session unchanged — together, the turn
strictly alternates: the mover of accepted move k+1 equals the turn
value produced by accepted move k. -/
theorem session_invariants :
    (∀ (w : World) (ms : List MoveCmd) (sid : Nat) (g g' : GameState) (i j v : Nat),
      dictGet w.mgr.games sid = some g →
      getCell g.board i j = some (some v) →
      dictGet (runMoves w ms).mgr.games sid = some g' →
      getCell g'.board i j = some (some v)) ∧
    (∀ (w : World) (game_id current : Nat) (row col : Int) (g : GameState),
      dictGet w.mgr.games game_id = some g →
      moveAccepted w game_id current row col →
      g.turn = current) ∧
    (∀ (w : World) (game_id current : Nat) (row col : Int) (g g' : GameState),
      dictGet w.mgr.games game_id = some g →
      moveAccepted w game_id current row col →
      dictGet (play_move w game_id current row col).1.mgr.games game_id = some g' →
      g'.turn = (if current == g.player1 then g.player2 else g.player1)) ∧
    (∀ (w : World) (game_id current : Nat) (row col : Int) (sid : Nat) (g : GameState),
      ¬ moveAccepted w game_id current row col →
      dictGet w.mgr.games sid = some g →
      dictGet (play_move w game_id current row col).1.mgr.games sid = some g) := by
  refine ⟨?_, ?_, ?_, ?_⟩
  · intro w ms sid g g' i j v hg hcell hg'
    exact runMoves_cell_preserved ms w sid g g' i j v hg hcell hg'
  · intro w game_id current row col g hg hacc
    obtain ⟨g0, r, rowList, c, hg0, ht, -⟩ := hacc
    rw [hg] at hg0
    injection hg0 with e
    rw [e]
    exact ht
  · intro w game_id current row col g g' hg hacc hg'
    obtain ⟨g0, r, rowList, c, hg0, ht, hr, hrl, hc, hcv⟩ := hacc
    rw [hg] at hg0
    injection hg0 with e
    subst e
    rcases play_move_accepted_games w game_id current row col g r c rowList
        hg ht hr hrl hc hcv with hgm | hgm
    · rw [hgm, dictGet_dictSet_self] at hg'
      injection hg' with e2
      rw [← e2]
      simp only [movedSession]
    · rw [hgm, dictGet_dictDel_self] at hg'
      cases hg'
  · intro w game_id current row col sid g hacc hg
    rw [play_move_rejected_id w game_id current row col hacc]
    exact hg

/-- Witness for `session_invariants`: in the A/B game, (i) cell (0,0),
occupied by 2 after the first move, still holds 2 after player 1's
later move at (1,1); (ii) the accepted first move's mover equals the
session's turn; (iii) after it the session's turn is the other
participant; (iv) a not-on-turn call leaves the session untouched. -/
theorem session_invariants_witness :
    getCell
      { player1 := 2, player2 := 1, player1_move_count := 1, player2_move_count := 1,
        turn := 2,
        board :=
          [[some 2, none, none], [none, some 1, none],
           [none, none, none]] : GameState }.board 0 0 = some (some 2) ∧
    (initialSession 2 1).turn = 2 ∧
    (movedSession (initialSession 2 1) 2 1 0 0 [none, none, none]).turn =
      (if 2 == (initialSession 2 1).player1 then (initialSession 2 1).player2
       else (initialSession 2 1).player1) ∧
    dictGet (play_move wStart 0 1 0 0).1.mgr.games 0 = some (initialSession 2 1) := by
  have hacc : moveAccepted wStart 0 2 0 0 :=
    ⟨initialSession 2 1, 0, [none, none, none], 0,
      by decide, by decide, by decide, by decide, by decide, by decide⟩
  have hnacc : ¬ moveAccepted wStart 0 1 0 0 := by
    rintro ⟨g, r, rowList, c, hg, ht, -⟩
    have h0 : dictGet wStart.mgr.games 0 = some (initialSession 2 1) := by decide
    rw [h0] at hg
    injection hg with e
    rw [← e] at ht
    exact absurd ht (by decide)
  refine ⟨?_, ?_, ?_, ?_⟩
  · exact session_invariants.1 wMove1 [⟨0, 1, 1, 1⟩] 0
      (movedSession (initialSession 2 1) 2 1 0 0 [none, none, none])
      { player1 := 2, player2 := 1, player1_move_count := 1, player2_move_count := 1,
        turn := 2,
        board := [[some 2, none, none], [none, some 1, none], [none, none, none]] }
      0 0 2 (by decide) (by decide) (by decide)
  · exact session_invariants.2.1 wStart 0 2 0 0 (initialSession 2 1) (by decide) hacc
  · exact session_invariants.2.2.1 wStart 0 2 0 0 (initialSession 2 1)
      (movedSession (initialSession 2 1) 2 1 0 0 [none, none, none])
      (by decide) hacc (by decide)
  · exact session_invariants.2.2.2 wStart 0 1 0 0 0 (initialSession 2 1) hnacc (by decide)

/-- C6 counterexample: identity 0 completes a winning row, the detector
reports WIN and the GAME_END names 0 as winner, yet — because the
Python-truthiness guard `if winner_id and loser_id` treats the integer 0
as falsy — the draw branch runs: both draw counters are incremented and
no win or loss is recorded, refuting the claim that a WIN always
increments the mover's win counter and the opponent's loss counter. -/
theorem handle_game_end_zero_winner_counterexample :
    is_game_over_board zeroWinBoard 0 = 1 ∧
    (handle_game_end wZero 0 0 2).1.out =
      [(0, Msg.gameEnd 0 (some 0)), (2, Msg.gameEnd 0 (some 0))] ∧
    (handle_game_end wZero 0 0 2).1.db.users 0 =
      some { username := "Z", wins := 0, losses := 0, draws := 1 } ∧
    (handle_game_end wZero 0 0 2).1.db.users 2 =
      some { username := "B", wins := 0, losses := 0, draws := 1 } := by
  refine ⟨by decide, by decide, by decide, by decide⟩

theorem handle_game_end_win_eq (w : World) (game_id current opponent : Nat)
    (g : GameState) (cu ou : UserRow) (grow : GameRow)
    (hg : dictGet w.mgr.games game_id = some g)
    (hne' : opponent ≠ current)
    (hu1 : w.db.users current = some cu) (hu2 : w.db.users opponent = some ou)
    (hrow : dictGet w.db.games game_id = some grow)
    (hwin : is_game_over_board g.board current = 1)
    (h0c : current ≠ 0) (h0o : opponent ≠ 0) :
    handle_game_end w game_id current opponent =
      ({ mgr := { queue := w.mgr.queue, games := dictDel w.mgr.games game_id }
         db := { users := fun x =>
                   if x = opponent then some { ou with losses := ou.losses + 1 }
                   else if x = current then some { cu with wins := cu.wins + 1 }
                   else w.db.users x
                 games := dictSet w.db.games game_id
                   { grow with
                     status := GStatus.completed
                     winner_id := some current
                     loser_id := some opponent
                     is_draw := false
                     player1_move_count := g.player1_move_count
                     player2_move_count := g.player2_move_count
                     final_state := some g.board }
                 nextGameId := w.db.nextGameId }
         out := w.out ++
           [(current, Msg.gameEnd game_id (some current)),
            (opponent, Msg.gameEnd game_id (some current))] }, none) := by
  unfold handle_game_end
  rw [hg]
  simp only [hwin, truthyId, hu1, hne', hu2, hrow]
  simp [hne', h0c, h0o, funext_iff]

theorem handle_game_end_win_zero_eq (w : World) (game_id current opponent : Nat)
    (g : GameState) (cu ou : UserRow) (grow : GameRow)
    (hg : dictGet w.mgr.games game_id = some g)
    (hne' : opponent ≠ current)
    (hu1 : w.db.users current = some cu) (hu2 : w.db.users opponent = some ou)
    (hrow : dictGet w.db.games game_id = some grow)
    (hwin : is_game_over_board g.board current = 1)
    (h0 : current = 0 ∨ opponent = 0) :
    handle_game_end w game_id current opponent =
      ({ mgr := { queue := w.mgr.queue, games := dictDel w.mgr.games game_id }
         db := { users := fun x =>
                   if x = opponent then some { ou with draws := ou.draws + 1 }
                   else if x = current then some { cu with draws := cu.draws + 1 }
                   else w.db.users x
                 games := dictSet w.db.games game_id
                   { grow with
                     status := GStatus.completed
                     winner_id := some current
                     loser_id := some opponent
                     is_draw := false
                     player1_move_count := g.player1_move_count
                     player2_move_count := g.player2_move_count
                     final_state := some g.board }
                 nextGameId := w.db.nextGameId }
         out := w.out ++
           [(current, Msg.gameEnd game_id (some current)),
            (opponent, Msg.gameEnd game_id (some current))] }, none) := by
  unfold handle_game_end
  rw [hg]
  simp only [hwin, truthyId, hu1, hne', hu2, hrow]
  rcases h0 with h0 | h0 <;> subst h0 <;> simp [hne', funext_iff]

theorem handle_game_end_draw_eq (w : World) (game_id current opponent : Nat)
    (g : GameState) (cu ou : UserRow) (grow : GameRow)
    (hg : dictGet w.mgr.games game_id = some g)
    (hne' : opponent ≠ current)
    (hu1 : w.db.users current = some cu) (hu2 : w.db.users opponent = some ou)
    (hrow : dictGet w.db.games game_id = some grow)
    (hdraw : is_game_over_board g.board current = 2) :
    handle_game_end w game_id current opponent =
      ({ mgr := { queue := w.mgr.queue, games := dictDel w.mgr.games game_id }
         db := { users := fun x =>
                   if x = opponent then some { ou with draws := ou.draws + 1 }
                   else if x = current then some { cu with draws := cu.draws + 1 }
                   else w.db.users x
                 games := dictSet w.db.games game_id
                   { grow with
                     status := GStatus.completed
                     winner_id := none
                     loser_id := none
                     is_draw := true
                     player1_move_count := g.player1_move_count
                     player2_move_count := g.player2_move_count
                     final_state := some g.board }
                 nextGameId := w.db.nextGameId }
         out := w.out ++
           [(current, Msg.gameEnd game_id none),
            (opponent, Msg.gameEnd game_id none)] }, none) := by
  unfold handle_game_end
  rw [hg]
  simp only [hdraw, truthyId, hu1, hne', hu2, hrow]
  simp [hne', funext_iff]

/-- C6 (amended): terminal handling with both participant identities
nonzero (so Python truthiness cannot misfire) and distinct behaves as
specified — on WIN the mover's win counter and the opponent's loss
counter each increase by exactly 1, on DRAW both draw counters increase
by 1, every other account row is untouched, in both cases both
participants receive the GAME_END (winner = mover on WIN, null on DRAW)
and the session is removed from the in-memory store. -/
theorem handle_game_end_stats (w : World) (game_id current opponent : Nat)
    (g : GameState) (cu ou : UserRow) (grow : GameRow)
    (hg : dictGet w.mgr.games game_id = some g)
    (hne : current ≠ opponent)
    (hu1 : w.db.users current = some cu) (hu2 : w.db.users opponent = some ou)
    (hrow : dictGet w.db.games game_id = some grow) :
    (is_game_over_board g.board current = 1 → current ≠ 0 → opponent ≠ 0 →
      (handle_game_end w game_id current opponent).2 = none ∧
      (handle_game_end w game_id current opponent).1.out = w.out ++
        [(current, Msg.gameEnd game_id (some current)),
         (opponent, Msg.gameEnd game_id (some current))] ∧
      (handle_game_end w game_id current opponent).1.db.users current =
        some { cu with wins := cu.wins + 1 } ∧
      (handle_game_end w game_id current opponent).1.db.users opponent =
        some { ou with losses := ou.losses + 1 } ∧
      (∀ x, x ≠ current → x ≠ opponent →
        (handle_game_end w game_id current opponent).1.db.users x = w.db.users x) ∧
      dictGet (handle_game_end w game_id current opponent).1.mgr.games game_id = none) ∧
    (is_game_over_board g.board current = 2 →
      (handle_game_end w game_id current opponent).2 = none ∧
      (handle_game_end w game_id current opponent).1.out = w.out ++
        [(current, Msg.gameEnd game_id none), (opponent, Msg.gameEnd game_id none)] ∧
      (handle_game_end w game_id current opponent).1.db.users current =
        some { cu with draws := cu.draws + 1 } ∧
      (handle_game_end w game_id current opponent).1.db.users opponent =
        some { ou with draws := ou.draws + 1 } ∧
      (∀ x, x ≠ current → x ≠ opponent →
        (handle_game_end w game_id current opponent).1.db.users x = w.db.users x) ∧
      dictGet (handle_game_end w game_id current opponent).1.mgr.games game_id = none) := by
  have hne' : opponent ≠ current := fun e => hne e.symm
  constructor
  · intro hwin h0c h0o
    rw [handle_game_end_win_eq w game_id current opponent g cu ou grow
      hg hne' hu1 hu2 hrow hwin h0c h0o]
    refine ⟨rfl, rfl, ?_, ?_, ?_, dictGet_dictDel_self _ _⟩
    · simp [hne]
    · simp
    · intro x hx1 hx2
      simp [hx1, hx2]
  · intro hdraw
    rw [handle_game_end_draw_eq w game_id current opponent g cu ou grow
      hg hne' hu1 hu2 hrow hdraw]
    refine ⟨rfl, rfl, ?_, ?_, ?_, dictGet_dictDel_self _ _⟩
    · simp [hne]
    · simp
    · intro x hx1 hx2
      simp [hx1, hx2]

/-- Witness for `handle_game_end_stats`: player 1 beats player 2 in
`wWin` — wins/losses counters 1, session gone; in `wDraw` both draw
counters reach 1. -/
theorem handle_game_end_stats_witness :
    ((handle_game_end wWin 0 1 2).1.db.users 1 =
      some { username := "A", wins := 1, losses := 0, draws := 0 } ∧
     (handle_game_end wWin 0 1 2).1.db.users 2 =
      some { username := "B", wins := 0, losses := 1, draws := 0 } ∧
     dictGet (handle_game_end wWin 0 1 2).1.mgr.games 0 = none) ∧
    ((handle_game_end wDraw 0 1 2).1.db.users 1 =
      some { username := "A", wins := 0, losses := 0, draws := 1 } ∧
     (handle_game_end wDraw 0 1 2).1.db.users 2 =
      some { username := "B", wins := 0, losses := 0, draws := 1 }) := by
  have h1 := (handle_game_end_stats wWin 0 1 2 winSession
      { username := "A", wins := 0, losses := 0, draws := 0 }
      { username := "B", wins := 0, losses := 0, draws := 0 }
      (freshRow 1 2) (by decide) (by decide) (by decide) (by decide) (by decide)).1
      (by decide) (by decide) (by decide)
  have h2 := (handle_game_end_stats wDraw 0 1 2 drawSession
      { username := "A", wins := 0, losses := 0, draws := 0 }
      { username := "B", wins := 0, losses := 0, draws := 0 }
      (freshRow 1 2) (by decide) (by decide) (by decide) (by decide) (by decide)).2
      (by decide)
  exact ⟨⟨h1.2.2.1, h1.2.2.2.1, h1.2.2.2.2.2⟩, h2.2.2.1, h2.2.2.2.1⟩

/-- C9: in terminal handling of a WIN, the win/loss statistics branch is
taken exactly when both the winner and loser identities are truthy in
Python's sense (non-null and nonzero): with both ids nonzero the win and
loss counters are incremented, while if either identity is the integer 0
the draw branch runs instead — both draw counters are incremented and no
win or loss is recorded — even though the GAME_END message already named
the mover as winner. -/
theorem handle_game_end_win_truthiness (w : World) (game_id current opponent : Nat)
    (g : GameState) (cu ou : UserRow) (grow : GameRow)
    (hg : dictGet w.mgr.games game_id = some g)
    (hne : current ≠ opponent)
    (hu1 : w.db.users current = some cu) (hu2 : w.db.users opponent = some ou)
    (hrow : dictGet w.db.games game_id = some grow)
    (hwin : is_game_over_board g.board current = 1) :
    (handle_game_end w game_id current opponent).1.out = w.out ++
      [(current, Msg.gameEnd game_id (some current)),
       (opponent, Msg.gameEnd game_id (some current))] ∧
    (current ≠ 0 ∧ opponent ≠ 0 →
      (handle_game_end w game_id current opponent).1.db.users current =
        some { cu with wins := cu.wins + 1 } ∧
      (handle_game_end w game_id current opponent).1.db.users opponent =
        some { ou with losses := ou.losses + 1 }) ∧
    (current = 0 ∨ opponent = 0 →
      (handle_game_end w game_id current opponent).1.db.users current =
        some { cu with draws := cu.draws + 1 } ∧
      (handle_game_end w game_id current opponent).1.db.users opponent =
        some { ou with draws := ou.draws + 1 }) := by
  have hne' : opponent ≠ current := fun e => hne e.symm
  refine ⟨?_, ?_, ?_⟩
  · by_cases h0 : current ≠ 0 ∧ opponent ≠ 0
    · rw [handle_game_end_win_eq w game_id current opponent g cu ou grow
        hg hne' hu1 hu2 hrow hwin h0.1 h0.2]
    · have h0' : current = 0 ∨ opponent = 0 := by tauto
      rw [handle_game_end_win_zero_eq w game_id current opponent g cu ou grow
        hg hne' hu1 hu2 hrow hwin h0']
  · intro h0
    rw [handle_game_end_win_eq w game_id current opponent g cu ou grow
      hg hne' hu1 hu2 hrow hwin h0.1 h0.2]
    constructor
    · simp [hne]
    · simp
  · intro h0
    rw [handle_game_end_win_zero_eq w game_id current opponent g cu ou grow
      hg hne' hu1 hu2 hrow hwin h0]
    constructor
    · simp [hne]
    · simp

/-- Witness for `handle_game_end_win_truthiness` in `wZero`: identity 0
wins, the GAME_END names 0, and — both ids not being truthy — the draw
branch runs, leaving both accounts with a draw and no win or loss. -/
theorem handle_game_end_win_truthiness_witness :
    (handle_game_end wZero 0 0 2).1.out =
      [(0, Msg.gameEnd 0 (some 0)), (2, Msg.gameEnd 0 (some 0))] ∧
    (handle_game_end wZero 0 0 2).1.db.users 0 =
      some { username := "Z", wins := 0, losses := 0, draws := 1 } ∧
    (handle_game_end wZero 0 0 2).1.db.users 2 =
      some { username := "B", wins := 0, losses := 0, draws := 1 } := by
  have h := handle_game_end_win_truthiness wZero 0 0 2
      { player1 := 0, player2 := 2, player1_move_count := 3, player2_move_count := 2,
        turn := 2, board := zeroWinBoard }
      { username := "Z", wins := 0, losses := 0, draws := 0 }
      { username := "B", wins := 0, losses := 0, draws := 0 }
      { player1_id := 0, player2_id := 2, status := GStatus.in_progress,
        winner_id := none, loser_id := none, is_draw := false, player1_move_count := 0,
        player2_move_count := 0, final_state := none }
      (by decide) (by decide) (by decide) (by decide) (by decide) (by decide)
  have h3 := h.2.2 (Or.inl rfl)
  exact ⟨h.1, h3.1, h3.2⟩

/-- C8: redeeming a websocket token fails with InvalidToken exactly when
the TTL store has no (live) mapping for the token, fails with
UserNotFound exactly when the stored identity no longer resolves in the
account store, and otherwise returns the resolved account; the store
comes back unchanged — no invalidation — so redeeming again with the
same token succeeds identically until natural TTL expiry. -/
theorem redeem_token_spec (store : String → Option TokenData)
    (users : Nat → Option UserRow) (token : String) :
    ((get_current_user_from_websocket_token store users token).2 =
        Except.error RedeemErr.invalidToken ↔ store ("ws_token:" ++ token) = none) ∧
    (∀ d, store ("ws_token:" ++ token) = some d →
      ((get_current_user_from_websocket_token store users token).2 =
          Except.error RedeemErr.userNotFound ↔ users d.user_id = none) ∧
      (∀ u, users d.user_id = some u →
        (get_current_user_from_websocket_token store users token).2 = Except.ok u)) ∧
    (get_current_user_from_websocket_token store users token).1 = store ∧
    (∀ u, (get_current_user_from_websocket_token store users token).2 = Except.ok u →
      (get_current_user_from_websocket_token
        (get_current_user_from_websocket_token store users token).1 users token).2 =
        Except.ok u) := by
  unfold get_current_user_from_websocket_token
  cases hs : store ("ws_token:" ++ token) with
  | none =>
    refine ⟨by simp, ?_, rfl, by simp⟩
    intro d hd
    cases hd
  | some d =>
    simp only []
    cases hu : users d.user_id with
    | none =>
      refine ⟨by simp, ?_, rfl, by simp⟩
      intro d' hd'
      injection hd' with e
      subst e
      exact ⟨by simp [hu], fun u huu => by rw [hu] at huu; cases huu⟩
    | some u =>
      refine ⟨by simp, ?_, rfl, ?_⟩
      · intro d' hd'
        injection hd' with e
        subst e
        refine ⟨by simp [hu], ?_⟩
        intro u' hu'
        rw [hu] at hu'
        injection hu' with e2
        subst e2
        rfl
      · intro u' h
        simp only [] at h ⊢
        rw [hs]
        simp only []
        rw [hu]
        exact h

/-- Witness for `redeem_token_spec` on a one-token store: "tok" resolves
to account 1 ("A"), "bad" is InvalidToken, the store is unchanged, and
redeeming "tok" a second time still succeeds. -/
theorem redeem_token_spec_witness :
    (get_current_user_from_websocket_token sampleStore sampleUsers "tok").2 =
      Except.ok { username := "A", wins := 0, losses := 0, draws := 0 } ∧
    (get_current_user_from_websocket_token sampleStore sampleUsers "bad").2 =
      Except.error RedeemErr.invalidToken ∧
    (get_current_user_from_websocket_token sampleStore sampleUsers "tok").1 = sampleStore := by
  refine ⟨?_, ?_, ?_⟩
  · exact ((redeem_token_spec sampleStore sampleUsers "tok").2.1
      { user_id := 1, username := "A" } (by decide)).2
      { username := "A", wins := 0, losses := 0, draws := 0 } (by decide)
  · exact (redeem_token_spec sampleStore sampleUsers "bad").1.mpr (by decide)
  · exact (redeem_token_spec sampleStore sampleUsers "tok").2.2.1

theorem pyResolve_neg (len : Nat) (i : Int) (h1 : -(len : Int) ≤ i) (h2 : i < 0) :
    pyResolve len i = some ((len : Int) + i).toNat := by
  unfold pyResolve
  rw [if_neg (by omega), if_pos ⟨h1, h2⟩]

theorem pyResolve_ge (len : Nat) (i : Int) (h : (len : Int) ≤ i) :
    pyResolve len i = none := by
  unfold pyResolve
  rw [if_neg (by omega), if_neg (by omega)]

theorem pyResolve_nonneg (len : Nat) (i : Int) (h1 : 0 ≤ i) (h2 : i < (len : Int)) :
    pyResolve len i = some i.toNat := by
  unfold pyResolve
  rw [if_pos ⟨h1, h2⟩]

theorem handle_game_end_no_indexError (w : World) (game_id cur opp : Nat) :
    (handle_game_end w game_id cur opp).2 ≠ some PyErr.indexError := by
  unfold handle_game_end
  split
  · simp
  · simp only []
    split
    · simp
    · split
      · simp
      · split
        · simp
        · simp

theorem play_move_accepted_eq (w : World) (game_id current : Nat) (row col : Int)
    (g : GameState) (r c : Nat) (rowList : List Cell)
    (hg : dictGet w.mgr.games game_id = some g) (ht : g.turn = current)
    (hr : pyResolve g.board.length row = some r) (hrl : g.board[r]? = some rowList)
    (hc : pyResolve rowList.length col = some c) (hcv : rowList[c]? = some none) :
    play_move w game_id current row col =
      handle_game_end
        { w with
          mgr := { w.mgr with
            games := dictSet w.mgr.games game_id
              (movedSession g current
                (if current == g.player1 then g.player2 else g.player1) r c rowList) }
          out := w.out ++
            [(current, Msg.gameMove game_id current
                (if current == g.player1 then g.player2 else g.player1) row col),
             (if current == g.player1 then g.player2 else g.player1,
              Msg.gameMove game_id current
                (if current == g.player1 then g.player2 else g.player1) row col)] }
        game_id current (if current == g.player1 then g.player2 else g.player1) := by
  simp [play_move, hg, ht, hr, hrl, hc, hcv]

/-- C10: play_move does no range validation on the client-supplied row
and col — for a known 3x3 session with the mover on turn, coordinates in
-3..-1 resolve by Python negative indexing to the mirrored cell (index
3 + i): such a move is accepted when the mirrored cell is empty, raises
no IndexError, and writes the mover into the mirrored cell; whereas a
coordinate ≥ 3 (row, or column once the row resolves) raises IndexError
instead of being rejected as a silent no-op. -/
theorem play_move_python_indexing (w : World) (game_id current : Nat) (row col : Int)
    (g : GameState)
    (hg : dictGet w.mgr.games game_id = some g) (ht : g.turn = current)
    (hshape : boardShape3 g.board) :
    ((-3 ≤ row ∧ row < 0 ∧ -3 ≤ col ∧ col < 0 ∧
        getCell g.board ((3 : Int) + row).toNat ((3 : Int) + col).toNat = some none) →
      moveAccepted w game_id current row col ∧
      (play_move w game_id current row col).2 ≠ some PyErr.indexError ∧
      (∀ g', dictGet (play_move w game_id current row col).1.mgr.games game_id = some g' →
        getCell g'.board ((3 : Int) + row).toNat ((3 : Int) + col).toNat =
          some (some current))) ∧
    (3 ≤ row → play_move w game_id current row col = (w, some PyErr.indexError)) ∧
    (0 ≤ row → row < 3 → 3 ≤ col →
      play_move w game_id current row col = (w, some PyErr.indexError)) := by
  obtain ⟨hlen, hrows⟩ := hshape
  refine ⟨?_, ?_, ?_⟩
  · rintro ⟨hr1, hr2, hc1, hc2, hmirror⟩
    unfold getCell at hmirror
    obtain ⟨rl, hrl, hcv⟩ := Option.bind_eq_some.mp hmirror
    have hrlen : rl.length = 3 := hrows rl (List.getElem?_mem hrl)
    have hrres : pyResolve g.board.length row = some ((3 : Int) + row).toNat := by
      rw [hlen]
      exact pyResolve_neg 3 row (by omega) hr2
    have hcres : pyResolve rl.length col = some ((3 : Int) + col).toNat := by
      rw [hrlen]
      exact pyResolve_neg 3 col (by omega) hc2
    refine ⟨⟨g, _, rl, _, hg, ht, hrres, hrl, hcres, hcv⟩, ?_, ?_⟩
    · rw [play_move_accepted_eq w game_id current row col g _ _ rl
        hg ht hrres hrl hcres hcv]
      exact handle_game_end_no_indexError _ _ _ _
    · intro g' hg'
      rcases play_move_accepted_games w game_id current row col g _ _ rl
          hg ht hrres hrl hcres hcv with hgm | hgm
      · rw [hgm, dictGet_dictSet_self] at hg'
        injection hg' with e
        rw [← e]
        simp only [movedSession]
        exact getCell_set_self g.board _ _ rl (some current) hrl (by omega)
      · rw [hgm, dictGet_dictDel_self] at hg'
        cases hg'
  · intro h3
    have hrres : pyResolve g.board.length row = none := by
      rw [hlen]
      exact pyResolve_ge 3 row h3
    simp [play_move, hg, ht, hrres]
  · intro h0 h3 hcge
    have hlt : row.toNat < g.board.length := by omega
    have hrres : pyResolve g.board.length row = some row.toNat := by
      rw [hlen]
      exact pyResolve_nonneg 3 row h0 h3
    cases hrl : g.board[row.toNat]? with
    | none =>
      rw [List.getElem?_eq_none_iff] at hrl
      omega
    | some rl =>
      have hrlen : rl.length = 3 := hrows rl (List.getElem?_mem hrl)
      have hcres : pyResolve rl.length col = none := by
        rw [hrlen]
        exact pyResolve_ge 3 col hcge
      simp [play_move, hg, ht, hrres, hrl, hcres]

/-- Witness for `play_move_python_indexing` in `wStart`: mover 2's move
at (-1, -1) is accepted and writes cell (2, 2), while rows or columns
of 3 raise IndexError with no state change. -/
theorem play_move_python_indexing_witness :
    moveAccepted wStart 0 2 (-1) (-1) ∧
    (play_move wStart 0 2 (-1) (-1)).2 ≠ some PyErr.indexError ∧
    play_move wStart 0 2 3 0 = (wStart, some PyErr.indexError) ∧
    play_move wStart 0 2 0 3 = (wStart, some PyErr.indexError) := by
  have h1 := play_move_python_indexing wStart 0 2 (-1) (-1) (initialSession 2 1)
    (by decide) (by decide) (by decide)
  have hneg := h1.1 (by refine ⟨by decide, by decide, by decide, by decide, by decide⟩)
  have h2 := play_move_python_indexing wStart 0 2 3 0 (initialSession 2 1)
    (by decide) (by decide) (by decide)
  have h3 := play_move_python_indexing wStart 0 2 0 3 (initialSession 2 1)
    (by decide) (by decide) (by decide)
  exact ⟨hneg.1, hneg.2.1, h2.2.1 (by omega), h3.2.2 (by omega) (by omega) (by omega)⟩

end TicTacOnline
